import Mathlib

/-!
Verification of the Zippy-Archon workflow-orchestration core.

This file gives a shallow embedding of the retry/diagnosis state machine of
the repository: the `AgentState` record threaded through every node, the
error-handling decorator of `archon_graph.py`, the node functions
(`route_user_message`, `finish_conversation`, `diagnose_errors`,
`generate_tool_code`, `finalize_new_tool`), the workflow graph built in
`orchestrator.py`, and the orchestrator entry points `start_flow` /
`resume_flow`.  External LLM calls are abstracted as oracles of type
`String → FuncRes String`; file writes and plugin-registry reloads are
modelled as explicit effect values returned by the functions that perform
them.  The graph engine itself (the langgraph-like `graph.run` /
`interrupt` / dynamic-route machinery) is not part of the repository
sources, so the traversal loop is modelled from the specification and is
marked as such in the doc comments of the relevant definitions.
-/

/-- Single-quote character, used to build Python f-string literals. -/
def squo : String := String.singleton (Char.ofNat 39)

/-- Python `str.lower()` (ASCII-faithful model): lower-case every
character. -/
def pyLower (s : String) : String := ⟨s.data.map Char.toLower⟩

/-- Whether `pat` occurs at the head of `hay` (contiguously). -/
def listStarts : List Char → List Char → Bool
  | _, [] => true
  | [], _ :: _ => false
  | a :: as, b :: bs => a == b && listStarts as bs

/-- Whether `pat` occurs contiguously anywhere inside `hay`:
Python's `pat in hay` on strings. -/
def listHasSub : List Char → List Char → Bool
  | [], pat => listStarts [] pat
  | a :: t, pat => listStarts (a :: t) pat || listHasSub t pat

/-- Python `pat in hay` for strings. -/
def pyContains (hay pat : String) : Bool := listHasSub hay.data pat.data

/-- Python `str.strip()`: remove leading and trailing whitespace. -/
def pyStrip (s : String) : String :=
  ⟨((s.data.dropWhile Char.isWhitespace).reverse.dropWhile Char.isWhitespace).reverse⟩

/-- Python `"\n\n".join(l)`. -/
def joinNN (l : List String) : String := String.intercalate "\n\n" l

/-- Python `l[-n:]`: the last `n` elements (all of them when fewer). -/
def lastN (n : Nat) (l : List String) : List String := l.drop (l.length - n)

/-- Lookup in a Python-dict model with default 0: `d.get(k, 0)`. -/
def dictGet (d : List (String × Nat)) (k : String) : Nat :=
  match d with
  | [] => 0
  | (k2, v) :: rest => if k2 = k then v else dictGet rest k

/-- Update/insert in a Python-dict model: `d[k] = v`. -/
def dictSet (d : List (String × Nat)) (k : String) (v : Nat) : List (String × Nat) :=
  match d with
  | [] => [(k, v)]
  | (k2, v2) :: rest => if k2 = k then (k, v) :: rest else (k2, v2) :: dictSet rest k v

/-- The `AgentState` TypedDict of `archon_graph.py`.  `error_log` and
`error_retries` are `Option`s because the decorator guards for their absence;
`generated_code`, `tool_creation_status` and `diagnostic_feedback` are keys
stored dynamically by the tool-generator and diagnostic nodes. -/
structure AgentState where
  latest_user_message : String
  messages : List String
  scope : String
  error_log : Option (List String)
  error_retries : Option (List (String × Nat))
  generated_code : Option String
  tool_creation_status : Option String
  diagnostic_feedback : Option String
deriving DecidableEq

/-- The error log of a state, defaulting to empty when absent. -/
def elog (s : AgentState) : List String := s.error_log.getD []

/-- The retry dictionary of a state, defaulting to empty when absent. -/
def eretries (s : AgentState) : List (String × Nat) := s.error_retries.getD []

/-- Python `state["error_retries"].get(name, 0)`. -/
def retryCount (s : AgentState) (name : String) : Nat := dictGet (eretries s) name

/-- A partial state update returned by a node function; merged into the
state by the engine.  `messages` merges by concatenation (per the
`Annotated` reducer in `AgentState`), the other keys overwrite. -/
structure Update where
  latest_user_message : Option String := none
  messages : List String := []
  scope : Option String := none
  generated_code : Option String := none
  tool_creation_status : Option String := none
  diagnostic_feedback : Option String := none
deriving DecidableEq

/-- Merge a partial update into the state: `messages` appends, every other
present key overwrites. -/
def applyUpdate (s : AgentState) (u : Update) : AgentState :=
  { s with
    latest_user_message := u.latest_user_message.getD s.latest_user_message
    messages := s.messages ++ u.messages
    scope := u.scope.getD s.scope
    generated_code := match u.generated_code with
      | none => s.generated_code
      | some c => some c
    tool_creation_status := match u.tool_creation_status with
      | none => s.tool_creation_status
      | some c => some c
    diagnostic_feedback := match u.diagnostic_feedback with
      | none => s.diagnostic_feedback
      | some c => some c }

/-- Result of invoking a node body once: it returns a value or raises an
exception carrying a message and a traceback. -/
inductive FuncRes (α : Type) where
  | ok : α → FuncRes α
  | exc : String → String → FuncRes α
deriving DecidableEq

/-- Whether the invocation raised. -/
def FuncRes.isExc : FuncRes α → Bool
  | .exc _ _ => true
  | .ok _ => false

/-- Result of one call to the decorated node: a returned value, the
dynamic-route dict produced on retry exhaustion, or a re-raised exception
propagating to the outer framework. -/
inductive WrapRes (α : Type) where
  | ok : α → WrapRes α
  | reroute : String → WrapRes α
  | raised : String → String → WrapRes α
deriving DecidableEq

/-- The f-string `f"Error in node '{node_name}': {str(e)}\nTraceback:\n{trace}"`
of the decorator. -/
def errorMessage (nodeName msg trace : String) : String :=
  "Error in node " ++ squo ++ nodeName ++ squo ++ ": " ++ msg ++ "\nTraceback:\n" ++ trace

/-- The decorator's guard: ensure `error_log` / `error_retries` keys exist. -/
def ensureInit (s : AgentState) : AgentState :=
  { s with error_log := some (elog s), error_retries := some (eretries s) }

/-- The `wrapper` of `error_handler_decorator` in `archon_graph.py`: run the
node body once; on success reset the retry counter to 0 and return the
result; on failure append a formatted entry to `error_log`, bump the retry
counter and either return the `diagnose_errors` reroute dict (when the new
count reaches `max_retries`) or re-raise. -/
def error_handler_wrapper (nodeName : String) (maxRetries : Nat)
    (func : AgentState → FuncRes α) (state0 : AgentState) : WrapRes α × AgentState :=
  let st := ensureInit state0
  let attempt := dictGet (st.error_retries.getD []) nodeName
  match func st with
  | .ok r => (.ok r, { st with error_retries := some (dictSet (st.error_retries.getD []) nodeName 0) })
  | .exc m t =>
    let em := errorMessage nodeName m t
    let st1 := { st with error_log := some (st.error_log.getD [] ++ [em]) }
    let a1 := attempt + 1
    let st2 := { st1 with error_retries := some (dictSet (st1.error_retries.getD []) nodeName a1) }
    if maxRetries ≤ a1 then (.reroute "diagnose_errors", st2) else (.raised m t, st2)

/-- Result of driving a decorated node to a non-raised outcome. -/
inductive RunRes (α : Type) where
  | done : WrapRes α → RunRes α
  | outOfFuel : RunRes α
deriving DecidableEq

/-- Modelled from the spec: the outer framework's behaviour on a re-raised
exception (the repository delegates this to its graph engine, which is not
in the sources).  Per §4.1/§9 of the spec, the same node is re-invoked until
the decorated call returns normally.  Returns the final outcome, the final
state, and the number of invocations performed. -/
def runRetries (nodeName : String) (maxRetries : Nat) (func : AgentState → FuncRes α) :
    Nat → AgentState → RunRes α × AgentState × Nat
  | 0, s => (.outOfFuel, s, 0)
  | fuel + 1, s =>
    match error_handler_wrapper nodeName maxRetries func s with
    | (.raised _ _, s1) =>
      let p := runRetries nodeName maxRetries func fuel s1
      (p.1, p.2.1, p.2.2 + 1)
    | (r, s1) => (.done r, s1, 1)

/-- The external LLM collaborators, one oracle per agent object in the
sources; each either returns the response text or raises. -/
structure Oracles where
  reasoner : String → FuncRes String
  router : String → FuncRes String
  endConv : String → FuncRes String
  diagnostic : String → FuncRes String
  toolGen : String → FuncRes String

/-- Body of the `define_scope_with_reasoner` node of `archon_graph.py`. -/
def define_scope_with_reasoner (O : Oracles) (s : AgentState) : FuncRes Update :=
  match O.reasoner ("Analyze user request: " ++ s.latest_user_message ++
      "\nReturn a scope for building a Pydantic AI agent.") with
  | .exc m t => .exc m t
  | .ok txt => .ok { scope := some txt }

/-- Body of the `coder_agent` node of `archon_graph.py`: returns an empty
`messages` update. -/
def coder_agent (_ : Oracles) (_ : AgentState) : FuncRes Update :=
  .ok { messages := [] }

/-- The pure classification inside `route_user_message`: substring tests on
the lowercased latest user message. -/
def routeLabel (msg : String) : String :=
  let um := pyLower msg
  if pyContains um "finish" then "finish_conversation"
  else if pyContains um "create tool" || pyContains um "new plugin" then "create_tool"
  else "coder_agent"

/-- Body of the `route_user_message` router of `archon_graph.py`: calls the
router agent (result unused), then classifies by substring tests on the
lowercased message. -/
def route_user_message (O : Oracles) (s : AgentState) : FuncRes String :=
  match O.router (pyLower s.latest_user_message) with
  | .exc m t => .exc m t
  | .ok _ => .ok (routeLabel s.latest_user_message)

/-- Body of the `finish_conversation` node of `archon_graph.py`; the
appended message blob is modelled as the oracle's response text. -/
def finish_conversation (O : Oracles) (s : AgentState) : FuncRes Update :=
  match O.endConv ("User last message: " ++ s.latest_user_message ++ "\nPlease say goodbye.") with
  | .exc m t => .exc m t
  | .ok txt => .ok { messages := [txt] }

/-- The prompt built by `diagnose_errors` in `zippy-archon/diagnostic_agent.py`. -/
def diagPrompt (summary : String) : String :=
  "\nSystem encountered repeated errors:\n\n" ++ summary ++
    "\n\nPlease analyze these and propose possible reasons/fixes.\n    "

/-- The f-string `f"Diagnostic Agent failed: {e}\nTraceback:\n{tb}"`. -/
def diagFailMsg (m tb : String) : String :=
  "Diagnostic Agent failed: " ++ m ++ "\nTraceback:\n" ++ tb

/-- The `diagnose_errors` node of `zippy-archon/diagnostic_agent.py`.  The
boolean records whether the diagnostic LLM was invoked.  The function is
total: an LLM exception is caught and its text returned as the feedback. -/
def diagnose_errors (O : Oracles) (s : AgentState) : Update × Bool :=
  let log := s.error_log.getD []
  if log.isEmpty then ({ diagnostic_feedback := some "No errors found to diagnose." }, false)
  else
    match O.diagnostic (diagPrompt (joinNN (lastN 3 log))) with
    | .ok txt => ({ diagnostic_feedback := some txt }, true)
    | .exc m tb => ({ diagnostic_feedback := some (diagFailMsg m tb) }, true)

/-- The prompt built by `diagnose_errors` in
`v2-agentic-workflow/diagnostic_agent.py`. -/
def diagPromptV2 (summary : String) : String :=
  "\nThe system has encountered repeated errors:\n\n" ++ summary ++
    "\n\nPlease analyze these errors and suggest possible reasons, fixes, \nor additional clarifications that might help resolve them.\n    "

/-- The `diagnose_errors` node of `v2-agentic-workflow/diagnostic_agent.py`;
identical to the zippy-archon one except for its fixed empty-log message and
its prompt wording. -/
def diagnose_errors_v2 (O : Oracles) (s : AgentState) : Update × Bool :=
  let log := s.error_log.getD []
  if log.isEmpty then ({ diagnostic_feedback := some "No errors to diagnose." }, false)
  else
    match O.diagnostic (diagPromptV2 (joinNN (lastN 3 log))) with
    | .ok txt => ({ diagnostic_feedback := some txt }, true)
    | .exc m tb => ({ diagnostic_feedback := some (diagFailMsg m tb) }, true)

/-- The `generate_tool_code` node of `zippy-archon/tool_generator_agent.py`
(not decorated: an LLM exception propagates). -/
def generate_tool_code (O : Oracles) (s : AgentState) : FuncRes Update :=
  match O.toolGen ("\nUser request: " ++ s.latest_user_message ++
      "\n\nGenerate a Python plugin that implements a class with " ++ squo ++ "name" ++ squo ++
      ", " ++ squo ++ "description" ++ squo ++ ", and " ++ squo ++ "run(...)" ++ squo ++ ".\n") with
  | .exc m t => .exc m t
  | .ok txt => .ok { generated_code := some txt }

/-- A file written to disk by `finalize_new_tool`. -/
structure FileWrite where
  path : String
  content : String
deriving DecidableEq

/-- The `finalize_new_tool` node of `zippy-archon/tool_generator_agent.py`.
Returns the partial state update, the file written (if any), and whether
`load_plugins("plugins")` was invoked. -/
def finalize_new_tool (s : AgentState) : Update × Option FileWrite × Bool :=
  let code := s.generated_code.getD ""
  if (pyStrip code).isEmpty then
    ({ tool_creation_status := some "No code generated." }, none, false)
  else
    ({ tool_creation_status := some ("Plugin created: " ++ "tool_generated.py") },
      some ⟨"plugins" ++ "/" ++ "tool_generated.py", code⟩, true)

/-- The nodes of the workflow graph built in `orchestrator.py`, plus the END
sentinel. -/
inductive Node where
  | define_scope_with_reasoner
  | coder_agent
  | get_next_user_message
  | finish_conversation
  | diagnose_errors
  | generate_tool_code
  | finalize_new_tool
  | endNode
deriving DecidableEq

/-- The unconditional edges added in `Orchestrator._build_graph`. -/
def normalSuccessor : Node → Option Node
  | .define_scope_with_reasoner => some .coder_agent
  | .coder_agent => some .get_next_user_message
  | .finish_conversation => some .endNode
  | .diagnose_errors => some .endNode
  | .generate_tool_code => some .finalize_new_tool
  | .finalize_new_tool => some .endNode
  | _ => none

/-- The conditional-edge mapping attached to `get_next_user_message`. -/
def routeTarget : String → Option Node
  | "coder_agent" => some .coder_agent
  | "finish_conversation" => some .finish_conversation
  | "create_tool" => some .generate_tool_code
  | _ => none

/-- Node lookup by graph-node name, used by the dynamic `__route__` edge. -/
def nodeNamed : String → Option Node
  | "define_scope_with_reasoner" => some .define_scope_with_reasoner
  | "coder_agent" => some .coder_agent
  | "get_next_user_message" => some .get_next_user_message
  | "finish_conversation" => some .finish_conversation
  | "diagnose_errors" => some .diagnose_errors
  | "generate_tool_code" => some .generate_tool_code
  | "finalize_new_tool" => some .finalize_new_tool
  | _ => none

/-- Result of a graph traversal. -/
inductive TravResult where
  | finished : AgentState → TravResult
  | suspended : AgentState → TravResult
  | fatalRouting : String → AgentState → TravResult
  | uncaught : String → String → AgentState → TravResult
  | noFuel : AgentState → TravResult
deriving DecidableEq

/-- Effect of executing one node: move to another node or halt. -/
inductive NodeOutcome where
  | goto : Node → AgentState → NodeOutcome
  | halt : TravResult → NodeOutcome

/-- Take the unconditional successor of `nd`. -/
def gotoNext (nd : Node) (s : AgentState) : NodeOutcome :=
  match normalSuccessor nd with
  | some nxt => .goto nxt s
  | none => .halt (.fatalRouting "" s)

/-- Dispatch on the outcome of a decorated node driven by `runRetries`:
a returned update is merged and the unconditional edge taken; the
`__route__` dict overrides the edge via `nodeNamed`. -/
def decoratedStep (nd : Node) (p : RunRes Update × AgentState × Nat) : NodeOutcome :=
  match p.1 with
  | .done (.ok u) => gotoNext nd (applyUpdate p.2.1 u)
  | .done (.reroute lbl) =>
    match nodeNamed lbl with
    | some nxt => .goto nxt p.2.1
    | none => .halt (.fatalRouting lbl p.2.1)
  | .done (.raised m t) => .halt (.uncaught m t p.2.1)
  | .outOfFuel => .halt (.noFuel p.2.1)

/-- Modelled from the spec: one step of the graph engine (§4.2), executing a
single node.  The node bodies, their decorator parameters and the edges are
taken from the sources; only the engine's dispatch itself is spec-modelled.
`get_next_user_message` is the suspend point; `diagnose_errors`,
`generate_tool_code` and `finalize_new_tool` are undecorated in the sources,
so an exception of `generate_tool_code` propagates uncaught. -/
def execNode (O : Oracles) (nd : Node) (s : AgentState) : NodeOutcome :=
  match nd with
  | .endNode => .halt (.finished s)
  | .get_next_user_message => .halt (.suspended s)
  | .define_scope_with_reasoner =>
    decoratedStep .define_scope_with_reasoner
      (runRetries "define_scope_with_reasoner" 2 (define_scope_with_reasoner O) 3 s)
  | .coder_agent =>
    decoratedStep .coder_agent (runRetries "coder_agent" 2 (coder_agent O) 3 s)
  | .finish_conversation =>
    decoratedStep .finish_conversation
      (runRetries "finish_conversation" 1 (finish_conversation O) 2 s)
  | .diagnose_errors => gotoNext .diagnose_errors (applyUpdate s (diagnose_errors O s).1)
  | .generate_tool_code =>
    match generate_tool_code O s with
    | .ok u => gotoNext .generate_tool_code (applyUpdate s u)
    | .exc m t => .halt (.uncaught m t s)
  | .finalize_new_tool => gotoNext .finalize_new_tool (applyUpdate s (finalize_new_tool s).1)

/-- Modelled from the spec: the traversal loop of the graph engine (§4.2),
which the repository delegates to its absent langgraph-like `graph.run`.
Returns the result together with the list of nodes executed, in order. -/
def traverse (O : Oracles) : Nat → Node → AgentState → TravResult × List Node
  | 0, _, s => (.noFuel s, [])
  | _ + 1, .endNode, s => (.finished s, [])
  | _ + 1, .get_next_user_message, s => (.suspended s, [])
  | fuel + 1, nd, s =>
    match execNode O nd s with
    | .halt r => (r, [nd])
    | .goto nxt s2 =>
      let p := traverse O fuel nxt s2
      (p.1, nd :: p.2)

/-- Errors surfaced by the orchestrator to its caller. -/
inductive OrchError where
  | SessionNotSuspendedError
deriving DecidableEq

/-- A session's checkpoint: the state captured at the suspend point, when
one is pending. -/
structure Session where
  pending : Option AgentState
deriving DecidableEq

/-- The initial `AgentState` dict literal of `Orchestrator.start_flow`. -/
def initialState (msg : String) : AgentState :=
  { latest_user_message := msg
    messages := []
    scope := ""
    error_log := some []
    error_retries := some []
    generated_code := none
    tool_creation_status := none
    diagnostic_feedback := none }

/-- The `Orchestrator.start_flow` entry point: build the fresh initial state
and run the graph from START (whose only edge leads to
`define_scope_with_reasoner`).  The traversal itself is spec-modelled; the
initial state literal and the entry edge are from the sources.  Also
returns the resulting session checkpoint. -/
def startFlow (O : Oracles) (fuel : Nat) (msg : String) :
    (TravResult × List Node) × Session :=
  let p := traverse O fuel .define_scope_with_reasoner (initialState msg)
  (p, match p.1 with
      | .suspended st => ⟨some st⟩
      | _ => ⟨none⟩)

/-- Modelled from the spec: `Orchestrator.resume_flow` (§4.4, §7).  The
sources delegate to the absent engine's `graph.run(user_message)`; per the
spec, resuming requires a pending suspension and otherwise fails with
`SessionNotSuspendedError`.  On resume, the suspend node's returned update
injects the message as `latest_user_message`, then the decorated
`route_user_message` router selects among the conditional edges of
`get_next_user_message`; an unrecognized label is a fatal routing error. -/
def resumeFlow (O : Oracles) (fuel : Nat) (sess : Session) (msg : String) :
    Except OrchError (TravResult × List Node) :=
  match sess.pending with
  | none => .error .SessionNotSuspendedError
  | some st =>
    let st2 := applyUpdate st { latest_user_message := some msg }
    let q := runRetries "route_user_message" 1 (route_user_message O) 2 st2
    match q.1 with
    | .done (.ok lbl) =>
      match routeTarget lbl with
      | some nxt => .ok (traverse O fuel nxt q.2.1)
      | none => .ok (.fatalRouting lbl q.2.1, [])
    | .done (.reroute lbl) =>
      match nodeNamed lbl with
      | some nxt => .ok (traverse O fuel nxt q.2.1)
      | none => .ok (.fatalRouting lbl q.2.1, [])
    | .done (.raised m t) => .ok (.uncaught m t q.2.1, [])
    | .outOfFuel => .ok (.noFuel q.2.1, [])

/-- A concrete oracle set whose calls all succeed, used to instantiate
theorems at concrete inputs. -/
def stubOracles : Oracles :=
  ⟨fun _ => .ok "r", fun _ => .ok "r", fun _ => .ok "r", fun _ => .ok "r", fun _ => .ok "r"⟩

/-- The state left by the decorator's failure branch: the formatted entry is
appended to `error_log` and the retry counter bumped. -/
def failState (name : String) (s : AgentState) (m t : String) : AgentState :=
  { ensureInit s with
    error_log := some (elog s ++ [errorMessage name m t])
    error_retries := some (dictSet (eretries s) name (retryCount s name + 1)) }

/-- The entries one decorated invocation appends to `error_log`: one
formatted entry on failure, nothing on success. -/
def failEntries (name : String) (f : AgentState → FuncRes α) (s : AgentState) : List String :=
  match f (ensureInit s) with
  | .ok _ => []
  | .exc m t => [errorMessage name m t]

theorem dictGet_dictSet_self (d : List (String × Nat)) (k : String) (v : Nat) :
    dictGet (dictSet d k v) k = v := by
  induction d with
  | nil => simp [dictGet, dictSet]
  | cons hd tl ih =>
    obtain ⟨k2, v2⟩ := hd
    by_cases h : k2 = k
    · simp [dictGet, dictSet, h]
    · simp [dictGet, dictSet, h, ih]

theorem retryCount_failState (name : String) (s : AgentState) (m t : String) :
    retryCount (failState name s m t) name = retryCount s name + 1 := by
  simp [retryCount, failState, eretries, dictGet_dictSet_self]

theorem elog_failState (name : String) (s : AgentState) (m t : String) :
    elog (failState name s m t) = elog s ++ [errorMessage name m t] := by
  simp [elog, failState]

theorem wrapper_ok {α : Type} (name : String) (n : Nat) (f : AgentState → FuncRes α)
    (s : AgentState) (r : α) (hx : f (ensureInit s) = .ok r) :
    error_handler_wrapper name n f s =
      (.ok r, { ensureInit s with error_retries := some (dictSet (eretries s) name 0) }) := by
  simp only [error_handler_wrapper, hx]
  simp [ensureInit, elog, eretries]

theorem wrapper_exc {α : Type} (name : String) (n : Nat) (f : AgentState → FuncRes α)
    (s : AgentState) (m t : String) (hx : f (ensureInit s) = .exc m t) :
    error_handler_wrapper name n f s =
      (if n ≤ retryCount s name + 1 then .reroute "diagnose_errors" else .raised m t,
        failState name s m t) := by
  simp only [error_handler_wrapper, hx]
  simp [ensureInit, elog, eretries, failState, retryCount, errorMessage]
  split <;> rfl

theorem elog_wrapper {α : Type} (name : String) (n : Nat) (f : AgentState → FuncRes α)
    (s : AgentState) :
    elog (error_handler_wrapper name n f s).2 = elog s ++ failEntries name f s := by
  cases hfx : f (ensureInit s) with
  | ok r =>
    rw [wrapper_ok name n f s r hfx]
    simp only [failEntries]
    rw [hfx]
    simp [elog, ensureInit]
  | exc m t =>
    rw [wrapper_exc name n f s m t hfx]
    simp only [failEntries]
    rw [hfx]
    simp [elog_failState]

theorem runRetries_allFail_aux {α : Type} (name : String) (n : Nat)
    (f : AgentState → FuncRes α) (hf : ∀ t, (f t).isExc = true) :
    ∀ (k fuel : Nat) (s : AgentState), 1 ≤ k → retryCount s name + k = n → k ≤ fuel →
      (runRetries name n f fuel s).1 = .done (.reroute "diagnose_errors") ∧
      (runRetries name n f fuel s).2.2 = k ∧
      retryCount (runRetries name n f fuel s).2.1 name = n := by
  intro k
  induction k with
  | zero => intro fuel s h1 _ _; omega
  | succ k ih =>
    intro fuel s _ hsum hfuel
    obtain ⟨fuel2, rfl⟩ : ∃ f2, fuel = f2 + 1 := ⟨fuel - 1, by omega⟩
    cases hfx : f (ensureInit s) with
    | ok r =>
      have hex := hf (ensureInit s)
      rw [hfx] at hex
      simp [FuncRes.isExc] at hex
    | exc m t =>
      have hw := wrapper_exc name n f s m t hfx
      by_cases hk : k = 0
      · subst hk
        rw [if_pos (by omega)] at hw
        simp only [runRetries, hw]
        refine ⟨trivial, trivial, ?_⟩
        rw [retryCount_failState]
        omega
      · rw [if_neg (by omega)] at hw
        have hrc := retryCount_failState name s m t
        have := ih fuel2 (failState name s m t) (by omega) (by omega) (by omega)
        simp only [runRetries, hw]
        exact ⟨this.1, by rw [this.2.1], this.2.2⟩

theorem runRetries_count_le {α : Type} (name : String) (n : Nat)
    (f : AgentState → FuncRes α) :
    ∀ (fuel : Nat) (s : AgentState),
      (runRetries name n f fuel s).2.2 ≤ max 1 (n - retryCount s name) := by
  intro fuel
  induction fuel with
  | zero => intro s; simp [runRetries]
  | succ fuel ih =>
    intro s
    cases hfx : f (ensureInit s) with
    | ok r =>
      have hw := wrapper_ok name n f s r hfx
      simp only [runRetries, hw]
      omega
    | exc m t =>
      have hw := wrapper_exc name n f s m t hfx
      by_cases hc : n ≤ retryCount s name + 1
      · rw [if_pos hc] at hw
        simp only [runRetries, hw]
        omega
      · rw [if_neg hc] at hw
        have hrc := retryCount_failState name s m t
        have := ih (failState name s m t)
        simp only [runRetries, hw]
        omega

theorem runRetries_elog_extend {α : Type} (name : String) (n : Nat)
    (f : AgentState → FuncRes α) :
    ∀ (fuel : Nat) (s : AgentState),
      ∃ tail, elog (runRetries name n f fuel s).2.1 = elog s ++ tail := by
  intro fuel
  induction fuel with
  | zero => intro s; exact ⟨[], by simp [runRetries]⟩
  | succ fuel ih =>
    intro s
    have helog := elog_wrapper name n f s
    rcases hw : error_handler_wrapper name n f s with ⟨r, s1⟩
    rw [hw] at helog
    cases r with
    | raised m t =>
      obtain ⟨tail, ht⟩ := ih s1
      exact ⟨failEntries name f s ++ tail, by
        simp only [runRetries, hw]
        rw [ht, helog, List.append_assoc]⟩
    | ok v => exact ⟨failEntries name f s, by simp only [runRetries, hw]; exact helog⟩
    | reroute lbl => exact ⟨failEntries name f s, by simp only [runRetries, hw]; exact helog⟩

theorem strData_append (a b : String) : (a ++ b).data = a.data ++ b.data := rfl

theorem listStarts_nil_pat (l : List Char) : listStarts l [] = true := by
  cases l <;> rfl

theorem listStarts_append : ∀ (b c : List Char), listStarts (b ++ c) b = true
  | [], c => listStarts_nil_pat c
  | x :: bs, c => by simp [listStarts, listStarts_append bs c]

theorem listHasSub_here (b c : List Char) : listHasSub (b ++ c) b = true := by
  cases b with
  | nil =>
    cases c with
    | nil => rfl
    | cons x t => simp [listHasSub, listStarts]
  | cons x bs => simp [listHasSub, listStarts, listStarts_append]

theorem listHasSub_append_right (a : List Char) {r b : List Char}
    (h : listHasSub r b = true) : listHasSub (a ++ r) b = true := by
  induction a with
  | nil => exact h
  | cons x as ih => simp [listHasSub, ih]

theorem errorMessage_has_name (name m t : String) :
    listHasSub (errorMessage name m t).data name.data = true := by
  have h : (errorMessage name m t).data =
      "Error in node ".data ++ (squo.data ++ (name.data ++ (squo.data ++ (": ".data ++
        (m.data ++ ("\nTraceback:\n".data ++ t.data)))))) := by
    simp [errorMessage, strData_append, List.append_assoc]
  rw [h]
  exact listHasSub_append_right _ (listHasSub_append_right _ (listHasSub_here _ _))

theorem errorMessage_has_msg (name m t : String) :
    listHasSub (errorMessage name m t).data m.data = true := by
  have h : (errorMessage name m t).data =
      "Error in node ".data ++ (squo.data ++ (name.data ++ (squo.data ++ (": ".data ++
        (m.data ++ ("\nTraceback:\n".data ++ t.data)))))) := by
    simp [errorMessage, strData_append, List.append_assoc]
  rw [h]
  exact listHasSub_append_right _ (listHasSub_append_right _ (listHasSub_append_right _
    (listHasSub_append_right _ (listHasSub_append_right _ (listHasSub_here _ _)))))

/-- C1: a step wrapped with `max_retries = n` whose every invocation fails is
invoked exactly `n` times, after which the decorated call returns the
`diagnose_errors` reroute dict and `error_retries[step.name] = n`. -/
theorem retry_bound_exhaustion {α : Type} (name : String) (n : Nat)
    (f : AgentState → FuncRes α) (s : AgentState) (fuel : Nat)
    (hfail : ∀ t, (f t).isExc = true) (h0 : retryCount s name = 0)
    (hn : 1 ≤ n) (hfuel : n ≤ fuel) :
    (runRetries name n f fuel s).1 = .done (.reroute "diagnose_errors") ∧
    (runRetries name n f fuel s).2.2 = n ∧
    retryCount (runRetries name n f fuel s).2.1 name = n :=
  runRetries_allFail_aux name n f hfail n fuel s hn (by omega) hfuel

/-- C1 witness: a concrete always-failing step with `max_retries = 2` is
invoked exactly twice, reroutes to diagnostics, and leaves a retry count
of 2. -/
theorem retry_bound_exhaustion_witness :
    (runRetries "coder_agent" 2 (fun _ => (FuncRes.exc "boom" "tb" : FuncRes Update)) 2
      (initialState "hi")).1 = .done (.reroute "diagnose_errors") ∧
    (runRetries "coder_agent" 2 (fun _ => (FuncRes.exc "boom" "tb" : FuncRes Update)) 2
      (initialState "hi")).2.2 = 2 ∧
    retryCount (runRetries "coder_agent" 2
      (fun _ => (FuncRes.exc "boom" "tb" : FuncRes Update)) 2
      (initialState "hi")).2.1 "coder_agent" = 2 :=
  retry_bound_exhaustion "coder_agent" 2 _ (initialState "hi") 2 (fun _ => rfl) rfl
    (by decide) (by decide)

/-- C2: given that the router LLM call returns, `route_user_message` returns
exactly one of the three labels, chosen by case-insensitive substring tests:
"finish" anywhere gives `finish_conversation`; otherwise "create tool" or
"new plugin" gives `create_tool`; otherwise `coder_agent`. -/
theorem route_classification (O : Oracles) (s : AgentState) (txt : String)
    (hok : O.router (pyLower s.latest_user_message) = .ok txt) :
    route_user_message O s = .ok (routeLabel s.latest_user_message) ∧
    (pyContains (pyLower s.latest_user_message) "finish" = true →
      routeLabel s.latest_user_message = "finish_conversation") ∧
    (pyContains (pyLower s.latest_user_message) "finish" = false →
      (pyContains (pyLower s.latest_user_message) "create tool" = true ∨
        pyContains (pyLower s.latest_user_message) "new plugin" = true) →
      routeLabel s.latest_user_message = "create_tool") ∧
    (pyContains (pyLower s.latest_user_message) "finish" = false →
      pyContains (pyLower s.latest_user_message) "create tool" = false →
      pyContains (pyLower s.latest_user_message) "new plugin" = false →
      routeLabel s.latest_user_message = "coder_agent") ∧
    (routeLabel s.latest_user_message = "finish_conversation" ∨
      routeLabel s.latest_user_message = "create_tool" ∨
      routeLabel s.latest_user_message = "coder_agent") := by
  refine ⟨by simp [route_user_message, hok], ?_, ?_, ?_, ?_⟩
  · intro h; simp [routeLabel, h]
  · intro h hor
    rcases hor with h2 | h2 <;> simp [routeLabel, h, h2]
  · intro h1 h2 h3; simp [routeLabel, h1, h2, h3]
  · simp only [routeLabel]
    split
    · exact Or.inl rfl
    · split
      · exact Or.inr (Or.inl rfl)
      · exact Or.inr (Or.inr rfl)

/-- C2 witness: the message "Please FINISH now" routes to
`finish_conversation` through a successful router call. -/
theorem route_classification_witness :
    route_user_message stubOracles (initialState "Please FINISH now") =
      .ok (routeLabel "Please FINISH now") ∧
    routeLabel "Please FINISH now" = "finish_conversation" :=
  ⟨(route_classification stubOracles (initialState "Please FINISH now") "r" rfl).1,
    (route_classification stubOracles (initialState "Please FINISH now") "r" rfl).2.1
      (by decide)⟩

/-- C3 counterexample: the claim says the executor itself immediately
re-invokes a failing step below its retry bound, with no exception
propagated to an outer framework; but on a concrete first failure with
`max_retries = 2` the single decorated call returns a re-raised exception
(outcome `raised`, one failure recorded), i.e. the retry is delegated to the
outer framework, exactly as §9 of the spec notes about the source. -/
theorem retry_is_reraise_counterexample :
    (error_handler_wrapper "coder_agent" 2
      (fun _ => (FuncRes.exc "boom" "tb" : FuncRes Update)) (initialState "hi")).1 =
      WrapRes.raised "boom" "tb" ∧
    retryCount (error_handler_wrapper "coder_agent" 2
      (fun _ => (FuncRes.exc "boom" "tb" : FuncRes Update)) (initialState "hi")).2
      "coder_agent" = 1 := by
  decide

/-- C3 amended: when a step fails and its incremented attempt count is still
below `max_retries`, the decorated call re-raises the exception to the outer
framework (it does not loop locally); across the outer framework's
re-invocations the step is invoked at most `max_retries` times in total
before the reroute is returned. -/
theorem retry_reraise_bound {α : Type} (name : String) (n : Nat)
    (f : AgentState → FuncRes α) (s : AgentState) (fuel : Nat) (m t : String)
    (hx : f (ensureInit s) = .exc m t) (hlt : retryCount s name + 1 < n) :
    (error_handler_wrapper name n f s).1 = .raised m t ∧
    (runRetries name n f fuel s).2.2 ≤ n := by
  constructor
  · rw [wrapper_exc name n f s m t hx, if_neg (by omega)]
  · have h := runRetries_count_le name n f fuel s
    omega

/-- C3 amended witness: at a concrete failing step with `max_retries = 3`
the first decorated call re-raises, and the total invocation count over the
outer loop stays within 3. -/
theorem retry_reraise_bound_witness :
    (error_handler_wrapper "coder_agent" 3
      (fun _ => (FuncRes.exc "boom" "tb" : FuncRes Update)) (initialState "hi")).1 =
      WrapRes.raised "boom" "tb" ∧
    (runRetries "coder_agent" 3 (fun _ => (FuncRes.exc "boom" "tb" : FuncRes Update)) 5
      (initialState "hi")).2.2 ≤ 3 :=
  retry_reraise_bound "coder_agent" 3 _ (initialState "hi") 5 "boom" "tb" rfl (by decide)

/-- C4: `resume_flow` on a session with no pending suspension fails with
`SessionNotSuspendedError` and never starts or continues a run (the error
result carries no traversal outcome). -/
theorem resume_requires_suspension (O : Oracles) (fuel : Nat) (msg : String) :
    resumeFlow O fuel ⟨none⟩ msg = .error .SessionNotSuspendedError := rfl

/-- C5: `finalize_new_tool` with an absent or whitespace-only
`generated_code` returns the status "No code generated.", writes no file and
does not reload the plugin registry; with non-blank code it writes
`plugins/tool_generated.py` and triggers the reload. -/
theorem finalize_short_circuit (s : AgentState) :
    (s.generated_code = none →
      finalize_new_tool s = ({ tool_creation_status := some "No code generated." }, none, false)) ∧
    ((pyStrip (s.generated_code.getD "")).isEmpty = true →
      finalize_new_tool s = ({ tool_creation_status := some "No code generated." }, none, false)) ∧
    ((pyStrip (s.generated_code.getD "")).isEmpty = false →
      finalize_new_tool s =
        ({ tool_creation_status := some ("Plugin created: " ++ "tool_generated.py") },
          some ⟨"plugins" ++ "/" ++ "tool_generated.py", s.generated_code.getD ""⟩, true)) := by
  refine ⟨?_, ?_, ?_⟩
  · intro h
    have h2 : (pyStrip "").isEmpty = true := by decide
    simp [finalize_new_tool, h, h2]
  · intro h; simp [finalize_new_tool, h]
  · intro h; simp [finalize_new_tool, h]

/-- C5 witness: a whitespace-only `generated_code` short-circuits with no
write and no reload; a non-blank one writes the plugin file and reloads. -/
theorem finalize_short_circuit_witness :
    finalize_new_tool { initialState "x" with generated_code := some "  \n " } =
      ({ tool_creation_status := some "No code generated." }, none, false) ∧
    finalize_new_tool { initialState "x" with generated_code := some "code" } =
      ({ tool_creation_status := some ("Plugin created: " ++ "tool_generated.py") },
        some ⟨"plugins" ++ "/" ++ "tool_generated.py", "code"⟩, true) :=
  ⟨(finalize_short_circuit { initialState "x" with generated_code := some "  \n " }).2.1
      (by decide),
    (finalize_short_circuit { initialState "x" with generated_code := some "code" }).2.2
      (by decide)⟩

/-- C6: every successful invocation of a decorated step returns the step's
own result and resets `error_retries[step.name]` to 0, whatever its previous
value (in particular after a failure within the retry budget). -/
theorem success_resets_retries {α : Type} (name : String) (n : Nat)
    (f : AgentState → FuncRes α) (s : AgentState) (r : α)
    (hok : f (ensureInit s) = .ok r) :
    (error_handler_wrapper name n f s).1 = .ok r ∧
    retryCount (error_handler_wrapper name n f s).2 name = 0 := by
  rw [wrapper_ok name n f s r hok]
  exact ⟨rfl, by simp [retryCount, eretries, dictGet_dictSet_self]⟩

/-- C6 witness: a success with a prior retry count of 1 (a failure on the
previous attempt) resets the counter to 0. -/
theorem success_resets_retries_witness :
    (error_handler_wrapper "coder_agent" 2 (fun _ => (FuncRes.ok 7 : FuncRes Nat))
      { initialState "x" with error_retries := some [("coder_agent", 1)] }).1 = .ok 7 ∧
    retryCount (error_handler_wrapper "coder_agent" 2 (fun _ => (FuncRes.ok 7 : FuncRes Nat))
      { initialState "x" with error_retries := some [("coder_agent", 1)] }).2
      "coder_agent" = 0 :=
  success_resets_retries "coder_agent" 2 _
    { initialState "x" with error_retries := some [("coder_agent", 1)] } 7 rfl

/-- C7: `error_log` is append-only: one decorated invocation appends exactly
the failure entries (nothing on success, exactly one formatted entry
containing the step name and error message on failure), and across the
whole retry loop the previous log is preserved as a prefix. -/
theorem error_log_append_only {α : Type} (name : String) (n : Nat)
    (f : AgentState → FuncRes α) (s : AgentState) :
    elog (error_handler_wrapper name n f s).2 = elog s ++ failEntries name f s ∧
    (∀ r, f (ensureInit s) = .ok r → failEntries name f s = []) ∧
    (∀ m t, f (ensureInit s) = .exc m t → failEntries name f s = [errorMessage name m t]) ∧
    (∀ m t, listHasSub (errorMessage name m t).data name.data = true ∧
      listHasSub (errorMessage name m t).data m.data = true) ∧
    (∀ fuel, ∃ tail, elog (runRetries name n f fuel s).2.1 = elog s ++ tail) := by
  refine ⟨elog_wrapper name n f s, ?_, ?_, ?_, fun fuel => runRetries_elog_extend name n f fuel s⟩
  · intro r h; simp only [failEntries]; rw [h]
  · intro m t h; simp only [failEntries]; rw [h]
  · intro m t; exact ⟨errorMessage_has_name name m t, errorMessage_has_msg name m t⟩

/-- C7 witness: a concrete failing invocation appends exactly its formatted
entry, and the loop preserves the old log as a prefix. -/
theorem error_log_append_only_witness :
    elog (error_handler_wrapper "coder_agent" 2
      (fun _ => (FuncRes.exc "boom" "tb" : FuncRes Update)) (initialState "hi")).2 =
      elog (initialState "hi") ++
        failEntries "coder_agent" (fun _ => (FuncRes.exc "boom" "tb" : FuncRes Update))
          (initialState "hi") ∧
    failEntries "coder_agent" (fun _ => (FuncRes.exc "boom" "tb" : FuncRes Update))
      (initialState "hi") = [errorMessage "coder_agent" "boom" "tb"] ∧
    ∃ tail, elog (runRetries "coder_agent" 2
      (fun _ => (FuncRes.exc "boom" "tb" : FuncRes Update)) 2 (initialState "hi")).2.1 =
      elog (initialState "hi") ++ tail :=
  ⟨(error_log_append_only "coder_agent" 2 _ (initialState "hi")).1,
    (error_log_append_only "coder_agent" 2 _ (initialState "hi")).2.2.1 "boom" "tb" rfl,
    (error_log_append_only "coder_agent" 2 _ (initialState "hi")).2.2.2.2 2⟩

/-- C8: once control is rerouted to `diagnose_errors` the traversal reaches
END after executing that single node — the trace is exactly
`[diagnose_errors]`, so the originally failing step is never invoked again;
moreover the decorator's reroute always targets `diagnose_errors`, and that
label resolves to the diagnostics node, so repeated failure always ends the
run through diagnostics. -/
theorem diagnose_terminal (O : Oracles) (s : AgentState) (fuel : Nat) :
    traverse O (fuel + 2) .diagnose_errors s =
      (.finished (applyUpdate s (diagnose_errors O s).1), [Node.diagnose_errors]) ∧
    (∀ (name : String) (n : Nat) (f : AgentState → FuncRes Update) (st : AgentState)
      (lbl : String),
      (error_handler_wrapper name n f st).1 = .reroute lbl → lbl = "diagnose_errors") ∧
    nodeNamed "diagnose_errors" = some Node.diagnose_errors := by
  refine ⟨rfl, ?_, rfl⟩
  intro name n f st lbl h
  cases hfx : f (ensureInit st) with
  | ok r =>
    rw [wrapper_ok name n f st r hfx] at h
    simp at h
  | exc m t =>
    rw [wrapper_exc name n f st m t hfx] at h
    by_cases hc : n ≤ retryCount st name + 1
    · rw [if_pos hc] at h
      simp only [WrapRes.reroute.injEq] at h
      exact h.symm
    · rw [if_neg hc] at h
      simp at h

/-- C8 witness: the traversal from the diagnostics node at a concrete state
ends after that single node, and a concrete exhausted step reroutes
precisely to the "diagnose_errors" label. -/
theorem diagnose_terminal_witness :
    traverse stubOracles 2 Node.diagnose_errors (initialState "x") =
      (.finished (applyUpdate (initialState "x")
        (diagnose_errors stubOracles (initialState "x")).1), [Node.diagnose_errors]) ∧
    ("diagnose_errors" : String) = "diagnose_errors" :=
  ⟨(diagnose_terminal stubOracles (initialState "x") 0).1,
    (diagnose_terminal stubOracles (initialState "x") 0).2.1 "coder_agent" 1
      (fun _ => FuncRes.exc "boom" "tb") (initialState "x") "diagnose_errors" (by decide)⟩

/-- C9: `start_flow(message)` runs the graph from its entry node on a fresh
state whose `latest_user_message` is the given message and whose other
fields are at their empty defaults, with `error_log` and `error_retries`
empty before the first step. -/
theorem start_flow_initial_state (O : Oracles) (fuel : Nat) (msg : String) :
    (startFlow O fuel msg).1 = traverse O fuel .define_scope_with_reasoner (initialState msg) ∧
    (initialState msg).latest_user_message = msg ∧
    (initialState msg).messages = [] ∧
    (initialState msg).scope = "" ∧
    (initialState msg).error_log = some [] ∧
    (initialState msg).error_retries = some [] ∧
    (initialState msg).generated_code = none ∧
    elog (initialState msg) = [] ∧
    eretries (initialState msg) = [] :=
  ⟨rfl, rfl, rfl, rfl, rfl, rfl, rfl, rfl, rfl⟩

/-- C10 counterexample: the claim fixes the empty-log message as
"No errors found to diagnose.", but the v2 implementation of
`diagnose_errors` returns "No errors to diagnose." on an empty error log. -/
theorem diagnose_message_counterexample :
    (diagnose_errors_v2 stubOracles (initialState "hi")).1.diagnostic_feedback =
      some "No errors to diagnose." ∧
    "No errors to diagnose." ≠ "No errors found to diagnose." :=
  ⟨rfl, by decide⟩

/-- C10 amended: both `diagnose_errors` implementations always return a
`diagnostic_feedback` string and never raise; on an empty `error_log` each
returns its fixed message (zippy-archon: "No errors found to diagnose.",
v2: "No errors to diagnose.") without invoking the reasoning capability; on
a non-empty log the capability is invoked on a prompt summarizing only the
last 3 entries, and a capability failure is caught and its text returned as
the feedback. -/
theorem diagnose_total_behavior (O : Oracles) (s : AgentState) :
    (∃ fb, (diagnose_errors O s).1.diagnostic_feedback = some fb) ∧
    (∃ fb, (diagnose_errors_v2 O s).1.diagnostic_feedback = some fb) ∧
    (s.error_log.getD [] = [] →
      diagnose_errors O s =
        ({ diagnostic_feedback := some "No errors found to diagnose." }, false) ∧
      diagnose_errors_v2 O s =
        ({ diagnostic_feedback := some "No errors to diagnose." }, false)) ∧
    (∀ l, s.error_log = some l → l ≠ [] →
      (diagnose_errors O s).2 = true ∧
      (∀ txt, O.diagnostic (diagPrompt (joinNN (lastN 3 l))) = .ok txt →
        (diagnose_errors O s).1.diagnostic_feedback = some txt) ∧
      (∀ m tb, O.diagnostic (diagPrompt (joinNN (lastN 3 l))) = .exc m tb →
        (diagnose_errors O s).1.diagnostic_feedback = some (diagFailMsg m tb))) ∧
    (∀ l, s.error_log = some l → l ≠ [] →
      (diagnose_errors_v2 O s).2 = true ∧
      (∀ txt, O.diagnostic (diagPromptV2 (joinNN (lastN 3 l))) = .ok txt →
        (diagnose_errors_v2 O s).1.diagnostic_feedback = some txt) ∧
      (∀ m tb, O.diagnostic (diagPromptV2 (joinNN (lastN 3 l))) = .exc m tb →
        (diagnose_errors_v2 O s).1.diagnostic_feedback = some (diagFailMsg m tb))) := by
  refine ⟨?_, ?_, ?_, ?_, ?_⟩
  · cases hE : (s.error_log.getD []).isEmpty with
    | true => exact ⟨"No errors found to diagnose.", by simp [diagnose_errors, hE]⟩
    | false =>
      cases hO : O.diagnostic (diagPrompt (joinNN (lastN 3 (s.error_log.getD [])))) with
      | ok txt => exact ⟨txt, by simp [diagnose_errors, hE, hO]⟩
      | exc m tb => exact ⟨diagFailMsg m tb, by simp [diagnose_errors, hE, hO]⟩
  · cases hE : (s.error_log.getD []).isEmpty with
    | true => exact ⟨"No errors to diagnose.", by simp [diagnose_errors_v2, hE]⟩
    | false =>
      cases hO : O.diagnostic (diagPromptV2 (joinNN (lastN 3 (s.error_log.getD [])))) with
      | ok txt => exact ⟨txt, by simp [diagnose_errors_v2, hE, hO]⟩
      | exc m tb => exact ⟨diagFailMsg m tb, by simp [diagnose_errors_v2, hE, hO]⟩
  · intro h
    constructor <;> simp [diagnose_errors, diagnose_errors_v2, h]
  · intro l hl hne
    have hgd : s.error_log.getD [] = l := by rw [hl]; rfl
    have hE : l.isEmpty = false := by
      cases l with
      | nil => exact absurd rfl hne
      | cons x xs => rfl
    refine ⟨?_, ?_, ?_⟩
    · simp [diagnose_errors, hgd, hE]
      cases hO : O.diagnostic (diagPrompt (joinNN (lastN 3 l))) <;> simp [hO]
    · intro txt hO; simp [diagnose_errors, hgd, hE, hO]
    · intro m tb hO; simp [diagnose_errors, hgd, hE, hO]
  · intro l hl hne
    have hgd : s.error_log.getD [] = l := by rw [hl]; rfl
    have hE : l.isEmpty = false := by
      cases l with
      | nil => exact absurd rfl hne
      | cons x xs => rfl
    refine ⟨?_, ?_, ?_⟩
    · simp [diagnose_errors_v2, hgd, hE]
      cases hO : O.diagnostic (diagPromptV2 (joinNN (lastN 3 l))) <;> simp [hO]
    · intro txt hO; simp [diagnose_errors_v2, hgd, hE, hO]
    · intro m tb hO; simp [diagnose_errors_v2, hgd, hE, hO]

/-- C10 amended witness: at concrete states, the empty log yields the fixed
zippy-archon message without invoking the capability, and a non-empty log
invokes it. -/
theorem diagnose_total_behavior_witness :
    diagnose_errors stubOracles (initialState "x") =
      ({ diagnostic_feedback := some "No errors found to diagnose." }, false) ∧
    (diagnose_errors stubOracles
      { initialState "x" with error_log := some ["e1"] }).2 = true ∧
    (diagnose_errors_v2 stubOracles
      { initialState "x" with error_log := some ["e1"] }).2 = true :=
  ⟨((diagnose_total_behavior stubOracles (initialState "x")).2.2.1 rfl).1,
    ((diagnose_total_behavior stubOracles
      { initialState "x" with error_log := some ["e1"] }).2.2.2.1 ["e1"] rfl
      (by decide)).1,
    ((diagnose_total_behavior stubOracles
      { initialState "x" with error_log := some ["e1"] }).2.2.2.2 ["e1"] rfl
      (by decide)).1⟩
